import Mathlib

/-!
Shallow embedding of `src/contracts/src/EnergyGridControl.sol` (the
weighted-capacity governance engine of the luxbin-chain repository).

Modelling conventions:
- `address` is `Nat`; `block.timestamp` is a `Nat` passed to each external
  function; `msg.sender` is an explicit `sender : Nat` argument.
- Solidity `string`/`bytes` payloads are opaque `List Nat` (only emptiness
  matters to the engine).
- The storage mapping `energyNodes` is an association list (Solidity
  mappings are finitely supported; lookup of an absent key yields the
  all-zero struct). `commands`, `hasVoted` and `authorizedProposers` are
  total functions with the Solidity zero default.
- A `require` failure reverts the whole call: each external function is an
  `Except Err GridState` computation, and `exec1` applies an operation with
  EVM transaction semantics (a reverted call leaves state unchanged).
- Emitted events are collected in an append-only `events` log.
- Solidity 0.8 checked arithmetic: all quantities here are `Nat`; the
  subtraction `totalActiveCapacity -= capacity` is `Nat` truncated
  subtraction, which agrees with the EVM whenever the capacity invariant
  (proved below) holds in the pre-state.
-/

abbrev Address := Nat

abbrev Timestamp := Nat

/-- Struct `GridCommand` of `EnergyGridControl.sol` (lines 16-26). -/
structure GridCommand where
  command : List Nat
  region : List Nat
  photonicData : List Nat
  proposer : Address
  timestamp : Timestamp
  executionTime : Timestamp
  executed : Bool
  votesFor : Nat
  votesAgainst : Nat
deriving Repr, DecidableEq

/-- Solidity zero value of `GridCommand` (unwritten mapping slot). -/
def GridCommand.zero : GridCommand :=
  ⟨[], [], [], 0, 0, 0, false, 0, 0⟩

/-- Struct `EnergyNode` of `EnergyGridControl.sol` (lines 28-36). -/
structure EnergyNode where
  nodeAddress : Address
  location : List Nat
  capacity : Nat
  isActive : Bool
  lastHeartbeat : Timestamp
  votingPower : Nat
  totalVotesCast : Nat
deriving Repr, DecidableEq

/-- Solidity zero value of `EnergyNode` (unwritten mapping slot). -/
def EnergyNode.zero : EnergyNode :=
  ⟨0, [], 0, false, 0, 0, 0⟩

/-- Events declared in `EnergyGridControl.sol` (lines 54-59 and the
`PhotonicSignalEmitted` emit at line 203). -/
inductive Event where
  | CommandProposed (commandId : Nat) (command region : List Nat) (proposer : Address)
  | CommandVoted (commandId : Nat) (voter : Address) (votingPower : Nat) (support : Bool)
  | PhotonicSignalEmitted (commandId : Nat) (photonicData : List Nat)
  | CommandExecuted (commandId : Nat) (photonicData : List Nat) (votesFor votesAgainst : Nat)
  | NodeRegistered (nodeAddress : Address) (location : List Nat) (capacity votingPower : Nat)
  | NodeDeactivated (nodeAddress : Address)
  | VotingPowerUpdated (nodeAddress : Address) (newVotingPower : Nat)
deriving Repr, DecidableEq

/-- Named revert reasons of the contract's `require` statements. -/
inductive Err where
  | notActiveNode
  | commandMissing
  | votingEnded
  | alreadyExecuted
  | alreadyVoted
  | emptyCommand
  | emptyRegion
  | emptyPhotonicData
  | notOwner
  | alreadyRegistered
  | zeroCapacity
  | notActive
  | votingNotEnded
  | noVotesCast
  | quorumNotReached
  | notApproved
deriving Repr, DecidableEq

/-- The finitely-supported `mapping(address => EnergyNode)`. -/
abbrev NodeMap := List (Address × EnergyNode)

/-- Mapping read: first binding of the key, Solidity zero value if absent. -/
def lookupNode : NodeMap → Address → EnergyNode
  | [], _ => EnergyNode.zero
  | p :: t, a => if p.1 = a then p.2 else lookupNode t a

/-- Mapping write: replace the first binding of the key in place, append a
fresh binding if the key is absent. -/
def setNode : NodeMap → Address → EnergyNode → NodeMap
  | [], a, v => [(a, v)]
  | p :: t, a, v => if p.1 = a then (a, v) :: t else p :: setNode t a v

/-- Sum of `capacity` over the bindings whose node is currently active. -/
def sumActive : NodeMap → Nat
  | [] => 0
  | p :: t => (if p.2.isActive then p.2.capacity else 0) + sumActive t

/-- Write to the function-typed `mapping(uint256 => GridCommand)`. -/
def setCmd (f : Nat → GridCommand) (k : Nat) (v : GridCommand) : Nat → GridCommand :=
  fun i => if i = k then v else f i

/-- Write to the nested `hasVoted` mapping. -/
def setVoted (f : Nat → Address → Bool) (k : Nat) (a : Address) (v : Bool) :
    Nat → Address → Bool :=
  fun i x => if i = k ∧ x = a then v else f i x

/-- Full contract storage plus the emitted-event log. -/
structure GridState where
  owner : Address
  commands : Nat → GridCommand
  energyNodes : NodeMap
  hasVoted : Nat → Address → Bool
  authorizedProposers : Address → Bool
  commandCount : Nat
  totalActiveCapacity : Nat
  events : List Event

def VOTING_PERIOD : Nat := 7 * 86400

def EXECUTION_DELAY : Nat := 3600

def MIN_APPROVAL_PERCENTAGE : Nat := 60

def MIN_PARTICIPATION_PERCENTAGE : Nat := 30

def HEALTH_WINDOW : Nat := 30 * 86400

/-- Constructor (lines 79-82): fresh storage with the deployer as owner and
sole authorized proposer. -/
def initState (owner : Address) : GridState where
  owner := owner
  commands := fun _ => GridCommand.zero
  energyNodes := []
  hasVoted := fun _ _ => false
  authorizedProposers := fun a => decide (a = owner)
  commandCount := 0
  totalActiveCapacity := 0
  events := []

/-- `proposeCommand` (lines 90-109): owner-only; requires non-empty command,
region and photonic data; assigns the next sequential id. The storage slot
write sets the listed fields and keeps the slot's previous `executed`,
`votesFor`, `votesAgainst` (the Solidity code writes fields individually). -/
def proposeCommand (s : GridState) (sender : Address) (now : Timestamp)
    (command region photonicData : List Nat) : Except Err GridState :=
  if sender = s.owner then
    if 0 < command.length then
      if 0 < region.length then
        if 0 < photonicData.length then
          let newCount := s.commandCount + 1
          let slot := s.commands newCount
          let newCommand : GridCommand :=
            { slot with
              command := command
              region := region
              photonicData := photonicData
              proposer := sender
              timestamp := now
              executionTime := now + VOTING_PERIOD + EXECUTION_DELAY }
          Except.ok
            { s with
              commandCount := newCount
              commands := setCmd s.commands newCount newCommand
              events := s.events ++ [Event.CommandProposed newCount command region sender] }
        else Except.error Err.emptyPhotonicData
      else Except.error Err.emptyRegion
    else Except.error Err.emptyCommand
  else Except.error Err.notOwner

/-- Internal `_executeCommand` (lines 196-210): re-checks the `executed`
guard, flips the flag, emits the photonic payload and the final tallies. -/
def execCommandInternal (s : GridState) (commandId : Nat) : Except Err GridState :=
  let cmd := s.commands commandId
  if cmd.executed = false then
    Except.ok
      { s with
        commands := setCmd s.commands commandId { cmd with executed := true }
        events := s.events ++
          [Event.PhotonicSignalEmitted commandId cmd.photonicData,
           Event.CommandExecuted commandId cmd.photonicData cmd.votesFor cmd.votesAgainst] }
  else Except.error Err.alreadyExecuted

/-- Internal `_checkAndExecuteCommand` (lines 148-167): quorum against the
live `totalActiveCapacity`, then approval percentage of votes cast; executes
when both hold, otherwise leaves the state untouched. -/
def checkAndExecuteCommand (s : GridState) (commandId : Nat) : Except Err GridState :=
  let cmd := s.commands commandId
  let totalVotesCast := cmd.votesFor + cmd.votesAgainst
  if totalVotesCast < s.totalActiveCapacity * MIN_PARTICIPATION_PERCENTAGE / 100 then
    Except.ok s
  else if 0 < totalVotesCast then
    let approvalPercentage := cmd.votesFor * 100 / totalVotesCast
    if MIN_APPROVAL_PERCENTAGE ≤ approvalPercentage then
      execCommandInternal s commandId
    else Except.ok s
  else Except.ok s

/-- `voteOnCommand` (lines 116-142): modifiers `onlyActiveNode`,
`commandExists`, `votingOpen`, then the `hasVoted` dedupe guard; on success
records the vote, adds the voter's weight to one tally, bumps the voter's
diagnostic counter and runs the auto-execution check. -/
def voteOnCommand (s : GridState) (sender : Address) (now : Timestamp)
    (commandId : Nat) (support : Bool) : Except Err GridState :=
  if (lookupNode s.energyNodes sender).isActive = true then
    if 0 < commandId ∧ commandId ≤ s.commandCount then
      if now ≤ (s.commands commandId).timestamp + VOTING_PERIOD then
        if (s.commands commandId).executed = false then
          if s.hasVoted commandId sender = false then
            let voter := lookupNode s.energyNodes sender
            let cmd := s.commands commandId
            let votingWeight := voter.votingPower
            let cmd1 :=
              if support then { cmd with votesFor := cmd.votesFor + votingWeight }
              else { cmd with votesAgainst := cmd.votesAgainst + votingWeight }
            let s2 : GridState :=
              { s with
                hasVoted := setVoted s.hasVoted commandId sender true
                energyNodes :=
                  setNode s.energyNodes sender
                    { voter with totalVotesCast := voter.totalVotesCast + 1 }
                commands := setCmd s.commands commandId cmd1
                events := s.events ++
                  [Event.CommandVoted commandId sender votingWeight support] }
            checkAndExecuteCommand s2 commandId
          else Except.error Err.alreadyVoted
        else Except.error Err.alreadyExecuted
      else Except.error Err.votingEnded
    else Except.error Err.commandMissing
  else Except.error Err.notActiveNode

/-- External `executeCommand` (lines 173-190): after the voting period, with
at least one vote, quorum and approval re-checked with the same formulas. -/
def executeCommand (s : GridState) (now : Timestamp) (commandId : Nat) :
    Except Err GridState :=
  if 0 < commandId ∧ commandId ≤ s.commandCount then
    let cmd := s.commands commandId
    if cmd.executed = false then
      if cmd.timestamp + VOTING_PERIOD ≤ now then
        let totalVotesCast := cmd.votesFor + cmd.votesAgainst
        if 0 < totalVotesCast then
          if s.totalActiveCapacity * MIN_PARTICIPATION_PERCENTAGE / 100 ≤ totalVotesCast then
            let approvalPercentage := cmd.votesFor * 100 / totalVotesCast
            if MIN_APPROVAL_PERCENTAGE ≤ approvalPercentage then
              execCommandInternal s commandId
            else Except.error Err.notApproved
          else Except.error Err.quorumNotReached
        else Except.error Err.noVotesCast
      else Except.error Err.votingNotEnded
    else Except.error Err.alreadyExecuted
  else Except.error Err.commandMissing

/-- `registerEnergyNode` (lines 217-241): open registration; fails if the
sender already has an active record or capacity is zero; creates the record
with `votingPower = capacity`, `isActive = true`, fresh heartbeat, adds the
capacity to `totalActiveCapacity`. The Solidity function declares no return
value, so the ABI return data of a successful call is empty, modelled as the
second component `[]`. -/
def registerEnergyNode (s : GridState) (sender : Address) (now : Timestamp)
    (location : List Nat) (capacity : Nat) : Except Err (GridState × List Nat) :=
  if (lookupNode s.energyNodes sender).isActive = false then
    if 0 < capacity then
      let votingPower := capacity
      Except.ok
        ({ s with
            energyNodes :=
              setNode s.energyNodes sender
                { nodeAddress := sender
                  location := location
                  capacity := capacity
                  isActive := true
                  lastHeartbeat := now
                  votingPower := votingPower
                  totalVotesCast := 0 }
            totalActiveCapacity := s.totalActiveCapacity + capacity
            events := s.events ++
              [Event.NodeRegistered sender location capacity votingPower] },
         ([] : List Nat))
    else Except.error Err.zeroCapacity
  else Except.error Err.alreadyRegistered

/-- `heartbeat` (lines 246-248): active nodes refresh `lastHeartbeat`. -/
def heartbeat (s : GridState) (sender : Address) (now : Timestamp) :
    Except Err GridState :=
  if (lookupNode s.energyNodes sender).isActive = true then
    let node := lookupNode s.energyNodes sender
    Except.ok
      { s with energyNodes := setNode s.energyNodes sender { node with lastHeartbeat := now } }
  else Except.error Err.notActiveNode

/-- `deactivateNode` (lines 254-264): owner-only; flips `isActive` off and
subtracts the node's capacity from the aggregate. -/
def deactivateNode (s : GridState) (sender : Address) (nodeAddress : Address) :
    Except Err GridState :=
  if sender = s.owner then
    if (lookupNode s.energyNodes nodeAddress).isActive = true then
      let node := lookupNode s.energyNodes nodeAddress
      let capacity := node.capacity
      Except.ok
        { s with
          energyNodes := setNode s.energyNodes nodeAddress { node with isActive := false }
          totalActiveCapacity := s.totalActiveCapacity - capacity
          events := s.events ++ [Event.NodeDeactivated nodeAddress] }
    else Except.error Err.notActive
  else Except.error Err.notOwner

/-- `checkNodeHealth` (lines 270-280): callable by anyone; deactivates the
node and shrinks the aggregate when the last heartbeat is more than 30 days
old, otherwise leaves the state untouched. -/
def checkNodeHealth (s : GridState) (now : Timestamp) (nodeAddress : Address) :
    Except Err GridState :=
  let node := lookupNode s.energyNodes nodeAddress
  if node.isActive = true then
    if node.lastHeartbeat + HEALTH_WINDOW < now then
      Except.ok
        { s with
          totalActiveCapacity := s.totalActiveCapacity - node.capacity
          energyNodes := setNode s.energyNodes nodeAddress { node with isActive := false }
          events := s.events ++ [Event.NodeDeactivated nodeAddress] }
    else Except.ok s
  else Except.error Err.notActive

/-- `getVotingPower` view (lines 287-292). -/
def getVotingPower (s : GridState) (nodeAddress : Address) : Nat :=
  if (lookupNode s.energyNodes nodeAddress).isActive = false then 0
  else (lookupNode s.energyNodes nodeAddress).votingPower

/-- Return tuple of the `getCommandStatus` view. -/
structure CommandStatus where
  command : List Nat
  region : List Nat
  votesFor : Nat
  votesAgainst : Nat
  totalVotes : Nat
  approvalPercentage : Nat
  executable : Bool
  executed : Bool
deriving Repr, DecidableEq

/-- `getCommandStatus` view (lines 298-329): vote breakdown plus the derived
`executable` boolean (quorum met, approval met, not yet executed). -/
def getCommandStatus (s : GridState) (commandId : Nat) : Except Err CommandStatus :=
  if 0 < commandId ∧ commandId ≤ s.commandCount then
    let cmd := s.commands commandId
    let totalVotes := cmd.votesFor + cmd.votesAgainst
    let approvalPct := if 0 < totalVotes then cmd.votesFor * 100 / totalVotes else 0
    let meetsQuorum :=
      decide (s.totalActiveCapacity * MIN_PARTICIPATION_PERCENTAGE / 100 ≤ totalVotes)
    let meetsApproval := decide (0 < totalVotes) && decide (MIN_APPROVAL_PERCENTAGE ≤ approvalPct)
    Except.ok
      { command := cmd.command
        region := cmd.region
        votesFor := cmd.votesFor
        votesAgainst := cmd.votesAgainst
        totalVotes := totalVotes
        approvalPercentage := approvalPct
        executable := meetsQuorum && meetsApproval && !cmd.executed
        executed := cmd.executed }
  else Except.error Err.commandMissing

/-- `getTotalGridCapacity` view (lines 335-337). -/
def getTotalGridCapacity (s : GridState) : Nat :=
  s.totalActiveCapacity

/-- One external transaction against the contract. -/
inductive Op where
  | propose (sender : Address) (now : Timestamp) (command region photonicData : List Nat)
  | vote (sender : Address) (now : Timestamp) (commandId : Nat) (support : Bool)
  | execute (sender : Address) (now : Timestamp) (commandId : Nat)
  | register (sender : Address) (now : Timestamp) (location : List Nat) (capacity : Nat)
  | beat (sender : Address) (now : Timestamp)
  | deactivate (sender : Address) (nodeAddress : Address)
  | health (sender : Address) (now : Timestamp) (nodeAddress : Address)
deriving Repr, DecidableEq

/-- Dispatch one transaction to the contract function it calls. -/
def stepE (s : GridState) : Op → Except Err GridState
  | Op.propose sender now command region photonicData =>
      proposeCommand s sender now command region photonicData
  | Op.vote sender now commandId support => voteOnCommand s sender now commandId support
  | Op.execute _ now commandId => executeCommand s now commandId
  | Op.register sender now location capacity =>
      Except.map Prod.fst (registerEnergyNode s sender now location capacity)
  | Op.beat sender now => heartbeat s sender now
  | Op.deactivate sender nodeAddress => deactivateNode s sender nodeAddress
  | Op.health _ now nodeAddress => checkNodeHealth s now nodeAddress

/-- EVM transaction semantics: a reverted call leaves storage unchanged. -/
def exec1 (s : GridState) (op : Op) : GridState :=
  match stepE s op with
  | Except.ok t => t
  | Except.error _ => s

/-- Run a sequence of transactions from a state. -/
def run (s : GridState) (ops : List Op) : GridState :=
  ops.foldl exec1 s

/-! ### Association-list map lemmas -/

theorem lookupNode_setNode_self (m : NodeMap) (a : Address) (v : EnergyNode) :
    lookupNode (setNode m a v) a = v := by
  induction m with
  | nil => simp [setNode, lookupNode]
  | cons p t ih =>
    by_cases h : p.1 = a
    · simp [setNode, h, lookupNode]
    · simp [setNode, h, lookupNode, ih]

theorem lookupNode_setNode_ne (m : NodeMap) (a b : Address) (v : EnergyNode)
    (h : b ≠ a) : lookupNode (setNode m a v) b = lookupNode m b := by
  have hne : ¬ a = b := fun hh => h hh.symm
  induction m with
  | nil => simp [setNode, lookupNode, hne]
  | cons p t ih =>
    by_cases hp : p.1 = a
    · subst hp
      simp [setNode, lookupNode, hne]
    · simp only [setNode, if_neg hp, lookupNode]
      by_cases hb : p.1 = b <;> simp [hb, ih]

theorem sumActive_setNode_of_inactive (m : NodeMap) (a : Address) (v : EnergyNode)
    (h : (lookupNode m a).isActive = false) :
    sumActive (setNode m a v) = sumActive m + (if v.isActive then v.capacity else 0) := by
  induction m with
  | nil => simp [setNode, sumActive, Nat.add_comm]
  | cons p t ih =>
    by_cases hp : p.1 = a
    · have hinact : p.2.isActive = false := by
        simpa [lookupNode, hp] using h
      simp [setNode, hp, sumActive, hinact, Nat.add_comm]
    · have h' : (lookupNode t a).isActive = false := by
        simpa [lookupNode, hp] using h
      simp [setNode, hp, sumActive, ih h', Nat.add_assoc]

theorem sumActive_setNode_of_deactivate (m : NodeMap) (a : Address) (v : EnergyNode)
    (hact : (lookupNode m a).isActive = true) (hv : v.isActive = false) :
    sumActive (setNode m a v) + (lookupNode m a).capacity = sumActive m := by
  induction m with
  | nil => simp [lookupNode, EnergyNode.zero] at hact
  | cons p t ih =>
    by_cases hp : p.1 = a
    · have hpa : p.2.isActive = true := by
        simpa [lookupNode, hp] using hact
      have hcap : (lookupNode (p :: t) a).capacity = p.2.capacity := by
        simp [lookupNode, hp]
      simp [setNode, hp, sumActive, hv, hpa, hcap, Nat.add_comm]
    · have h' : (lookupNode t a).isActive = true := by
        simpa [lookupNode, hp] using hact
      have hcap : (lookupNode (p :: t) a).capacity = (lookupNode t a).capacity := by
        simp [lookupNode, hp]
      simp only [setNode, if_neg hp, sumActive, hcap]
      rw [Nat.add_assoc, ih h']

theorem sumActive_setNode_of_same (m : NodeMap) (a : Address) (v : EnergyNode)
    (h1 : v.isActive = (lookupNode m a).isActive)
    (h2 : v.capacity = (lookupNode m a).capacity) :
    sumActive (setNode m a v) = sumActive m := by
  induction m with
  | nil =>
    simp only [lookupNode, EnergyNode.zero] at h1
    simp [setNode, sumActive, h1]
  | cons p t ih =>
    by_cases hp : p.1 = a
    · have e1 : v.isActive = p.2.isActive := by simpa [lookupNode, hp] using h1
      have e2 : v.capacity = p.2.capacity := by simpa [lookupNode, hp] using h2
      simp [setNode, hp, sumActive, e1, e2]
    · have e1 : v.isActive = (lookupNode t a).isActive := by
        simpa [lookupNode, hp] using h1
      have e2 : v.capacity = (lookupNode t a).capacity := by
        simpa [lookupNode, hp] using h2
      simp [setNode, hp, sumActive, ih e1 e2]

theorem capacity_le_sumActive (m : NodeMap) (a : Address)
    (h : (lookupNode m a).isActive = true) :
    (lookupNode m a).capacity ≤ sumActive m := by
  induction m with
  | nil => simp [lookupNode, EnergyNode.zero] at h
  | cons p t ih =>
    by_cases hp : p.1 = a
    · have hpa : p.2.isActive = true := by simpa [lookupNode, hp] using h
      simp [lookupNode, hp, sumActive, hpa, Nat.le_add_right]
    · have h' : (lookupNode t a).isActive = true := by
        simpa [lookupNode, hp] using h
      have := ih h'
      simp only [lookupNode, if_neg hp, sumActive]
      omega

/-! ### Event counters -/

/-- Number of `CommandVoted` events in a log for a given proposal and voter. -/
def countVoted : List Event → Nat → Address → Nat
  | [], _, _ => 0
  | Event.CommandVoted i v _ _ :: t, commandId, a =>
      (if i = commandId ∧ v = a then 1 else 0) + countVoted t commandId a
  | _ :: t, commandId, a => countVoted t commandId a

/-- Number of `CommandExecuted` events in a log for a given proposal. -/
def countExec : List Event → Nat → Nat
  | [], _ => 0
  | Event.CommandExecuted i _ _ _ :: t, commandId =>
      (if i = commandId then 1 else 0) + countExec t commandId
  | _ :: t, commandId => countExec t commandId

theorem countVoted_append (l1 l2 : List Event) (commandId : Nat) (a : Address) :
    countVoted (l1 ++ l2) commandId a
      = countVoted l1 commandId a + countVoted l2 commandId a := by
  induction l1 with
  | nil => simp [countVoted]
  | cons e t ih => cases e <;> simp [countVoted, ih] <;> omega

theorem countExec_append (l1 l2 : List Event) (commandId : Nat) :
    countExec (l1 ++ l2) commandId = countExec l1 commandId + countExec l2 commandId := by
  induction l1 with
  | nil => simp [countExec]
  | cons e t ih => cases e <;> simp [countExec, ih] <;> omega

/-! ### Destructor lemmas for successful calls -/

theorem proposeCommand_ok (s : GridState) (sender : Address) (now : Timestamp)
    (c r d : List Nat) (s' : GridState)
    (h : proposeCommand s sender now c r d = Except.ok s') :
    s'.energyNodes = s.energyNodes ∧ s'.totalActiveCapacity = s.totalActiveCapacity
    ∧ s'.hasVoted = s.hasVoted ∧ s'.commandCount = s.commandCount + 1
    ∧ s'.owner = s.owner
    ∧ (∀ i, (s'.commands i).executed = (s.commands i).executed
        ∧ (s'.commands i).votesFor = (s.commands i).votesFor
        ∧ (s'.commands i).votesAgainst = (s.commands i).votesAgainst)
    ∧ s'.events = s.events ++ [Event.CommandProposed (s.commandCount + 1) c r sender] := by
  unfold proposeCommand at h
  split_ifs at h
  simp only [Except.ok.injEq] at h
  subst h
  refine ⟨rfl, rfl, rfl, rfl, rfl, ?_, rfl⟩
  intro i
  by_cases hi : i = s.commandCount + 1 <;> simp [setCmd, hi]

theorem execCommandInternal_ok (s : GridState) (commandId : Nat) (s' : GridState)
    (h : execCommandInternal s commandId = Except.ok s') :
    (s.commands commandId).executed = false
    ∧ s'.energyNodes = s.energyNodes ∧ s'.totalActiveCapacity = s.totalActiveCapacity
    ∧ s'.hasVoted = s.hasVoted ∧ s'.commandCount = s.commandCount ∧ s'.owner = s.owner
    ∧ (∀ j, j ≠ commandId → s'.commands j = s.commands j)
    ∧ s'.commands commandId = { s.commands commandId with executed := true }
    ∧ s'.events = s.events ++
        [Event.PhotonicSignalEmitted commandId (s.commands commandId).photonicData,
         Event.CommandExecuted commandId (s.commands commandId).photonicData
           (s.commands commandId).votesFor (s.commands commandId).votesAgainst] := by
  simp only [execCommandInternal] at h
  split_ifs at h with hex
  simp only [Except.ok.injEq] at h
  subst h
  refine ⟨hex, rfl, rfl, rfl, rfl, rfl, ?_, ?_, rfl⟩
  · intro j hj
    simp [setCmd, hj]
  · simp [setCmd]

theorem checkAndExecuteCommand_ok (s : GridState) (commandId : Nat) (s' : GridState)
    (h : checkAndExecuteCommand s commandId = Except.ok s') :
    s'.energyNodes = s.energyNodes ∧ s'.totalActiveCapacity = s.totalActiveCapacity
    ∧ s'.hasVoted = s.hasVoted ∧ s'.commandCount = s.commandCount ∧ s'.owner = s.owner
    ∧ (∀ j, j ≠ commandId → s'.commands j = s.commands j)
    ∧ (s'.commands commandId).votesFor = (s.commands commandId).votesFor
    ∧ (s'.commands commandId).votesAgainst = (s.commands commandId).votesAgainst
    ∧ ((s.commands commandId).executed = true → (s'.commands commandId).executed = true)
    ∧ (s'.events = s.events ∧ s'.commands = s.commands
       ∨ ((s.commands commandId).executed = false
          ∧ (s'.commands commandId).executed = true
          ∧ s'.events = s.events ++
              [Event.PhotonicSignalEmitted commandId (s.commands commandId).photonicData,
               Event.CommandExecuted commandId (s.commands commandId).photonicData
                 (s.commands commandId).votesFor (s.commands commandId).votesAgainst])) := by
  simp only [checkAndExecuteCommand] at h
  split_ifs at h with h1 h2 h3
  · simp only [Except.ok.injEq] at h
    subst h
    exact ⟨rfl, rfl, rfl, rfl, rfl, fun _ _ => rfl, rfl, rfl, fun hx => hx, Or.inl ⟨rfl, rfl⟩⟩
  · obtain ⟨hex, h1', h2', h3', h4', h5', h6', h7', h8'⟩ :=
      execCommandInternal_ok s commandId s' h
    refine ⟨h1', h2', h3', h4', h5', h6', ?_, ?_, ?_, Or.inr ⟨hex, ?_, h8'⟩⟩
    · rw [h7']
    · rw [h7']
    · intro hx; rw [hex] at hx; cases hx
    · rw [h7']
  · simp only [Except.ok.injEq] at h
    subst h
    exact ⟨rfl, rfl, rfl, rfl, rfl, fun _ _ => rfl, rfl, rfl, fun hx => hx, Or.inl ⟨rfl, rfl⟩⟩
  · simp only [Except.ok.injEq] at h
    subst h
    exact ⟨rfl, rfl, rfl, rfl, rfl, fun _ _ => rfl, rfl, rfl, fun hx => hx, Or.inl ⟨rfl, rfl⟩⟩

theorem registerEnergyNode_ok (s : GridState) (sender : Address) (now : Timestamp)
    (location : List Nat) (capacity : Nat) (s' : GridState) (ret : List Nat)
    (h : registerEnergyNode s sender now location capacity = Except.ok (s', ret)) :
    (lookupNode s.energyNodes sender).isActive = false
    ∧ 0 < capacity
    ∧ s'.energyNodes = setNode s.energyNodes sender
        { nodeAddress := sender, location := location, capacity := capacity,
          isActive := true, lastHeartbeat := now, votingPower := capacity,
          totalVotesCast := 0 }
    ∧ s'.totalActiveCapacity = s.totalActiveCapacity + capacity
    ∧ s'.commands = s.commands ∧ s'.hasVoted = s.hasVoted
    ∧ s'.commandCount = s.commandCount ∧ s'.owner = s.owner
    ∧ s'.events = s.events ++ [Event.NodeRegistered sender location capacity capacity]
    ∧ ret = [] := by
  simp only [registerEnergyNode] at h
  split_ifs at h with h1 h2
  simp only [Except.ok.injEq, Prod.mk.injEq] at h
  obtain ⟨hs, hr⟩ := h
  subst hs
  subst hr
  exact ⟨h1, h2, rfl, rfl, rfl, rfl, rfl, rfl, rfl, rfl⟩

theorem heartbeat_ok (s : GridState) (sender : Address) (now : Timestamp) (s' : GridState)
    (h : heartbeat s sender now = Except.ok s') :
    (lookupNode s.energyNodes sender).isActive = true
    ∧ s'.energyNodes = setNode s.energyNodes sender
        { lookupNode s.energyNodes sender with lastHeartbeat := now }
    ∧ s'.totalActiveCapacity = s.totalActiveCapacity
    ∧ s'.commands = s.commands ∧ s'.hasVoted = s.hasVoted
    ∧ s'.commandCount = s.commandCount ∧ s'.owner = s.owner
    ∧ s'.events = s.events := by
  simp only [heartbeat] at h
  split_ifs at h with h1
  simp only [Except.ok.injEq] at h
  subst h
  exact ⟨h1, rfl, rfl, rfl, rfl, rfl, rfl, rfl⟩

theorem deactivateNode_ok (s : GridState) (sender nodeAddress : Address) (s' : GridState)
    (h : deactivateNode s sender nodeAddress = Except.ok s') :
    sender = s.owner
    ∧ (lookupNode s.energyNodes nodeAddress).isActive = true
    ∧ s'.energyNodes = setNode s.energyNodes nodeAddress
        { lookupNode s.energyNodes nodeAddress with isActive := false }
    ∧ s'.totalActiveCapacity
        = s.totalActiveCapacity - (lookupNode s.energyNodes nodeAddress).capacity
    ∧ s'.commands = s.commands ∧ s'.hasVoted = s.hasVoted
    ∧ s'.commandCount = s.commandCount ∧ s'.owner = s.owner
    ∧ s'.events = s.events ++ [Event.NodeDeactivated nodeAddress] := by
  simp only [deactivateNode] at h
  split_ifs at h with h1 h2
  simp only [Except.ok.injEq] at h
  subst h
  exact ⟨h1, h2, rfl, rfl, rfl, rfl, rfl, rfl, rfl⟩

theorem checkNodeHealth_ok (s : GridState) (now : Timestamp) (nodeAddress : Address)
    (s' : GridState) (h : checkNodeHealth s now nodeAddress = Except.ok s') :
    (lookupNode s.energyNodes nodeAddress).isActive = true
    ∧ ((¬ (lookupNode s.energyNodes nodeAddress).lastHeartbeat + HEALTH_WINDOW < now
          ∧ s' = s)
       ∨ ((lookupNode s.energyNodes nodeAddress).lastHeartbeat + HEALTH_WINDOW < now
          ∧ s'.energyNodes = setNode s.energyNodes nodeAddress
              { lookupNode s.energyNodes nodeAddress with isActive := false }
          ∧ s'.totalActiveCapacity
              = s.totalActiveCapacity - (lookupNode s.energyNodes nodeAddress).capacity
          ∧ s'.commands = s.commands ∧ s'.hasVoted = s.hasVoted
          ∧ s'.commandCount = s.commandCount ∧ s'.owner = s.owner
          ∧ s'.events = s.events ++ [Event.NodeDeactivated nodeAddress])) := by
  simp only [checkNodeHealth] at h
  split_ifs at h with h1 h2
  · simp only [Except.ok.injEq] at h
    subst h
    exact ⟨h1, Or.inr ⟨h2, rfl, rfl, rfl, rfl, rfl, rfl, rfl⟩⟩
  · simp only [Except.ok.injEq] at h
    subst h
    exact ⟨h1, Or.inl ⟨h2, rfl⟩⟩

theorem executeCommand_ok (s : GridState) (now : Timestamp) (commandId : Nat)
    (s' : GridState) (h : executeCommand s now commandId = Except.ok s') :
    (0 < commandId ∧ commandId ≤ s.commandCount)
    ∧ (s.commands commandId).executed = false
    ∧ (s.commands commandId).timestamp + VOTING_PERIOD ≤ now
    ∧ 0 < (s.commands commandId).votesFor + (s.commands commandId).votesAgainst
    ∧ s.totalActiveCapacity * MIN_PARTICIPATION_PERCENTAGE / 100
        ≤ (s.commands commandId).votesFor + (s.commands commandId).votesAgainst
    ∧ MIN_APPROVAL_PERCENTAGE ≤ (s.commands commandId).votesFor * 100
        / ((s.commands commandId).votesFor + (s.commands commandId).votesAgainst)
    ∧ execCommandInternal s commandId = Except.ok s' := by
  simp only [executeCommand] at h
  split_ifs at h with h1 h2 h3 h4 h5 h6
  exact ⟨h1, h2, h3, h4, h5, h6, h⟩

theorem voteOnCommand_ok (s : GridState) (sender : Address) (now : Timestamp)
    (commandId : Nat) (support : Bool) (s' : GridState)
    (h : voteOnCommand s sender now commandId support = Except.ok s') :
    (lookupNode s.energyNodes sender).isActive = true
    ∧ (0 < commandId ∧ commandId ≤ s.commandCount)
    ∧ now ≤ (s.commands commandId).timestamp + VOTING_PERIOD
    ∧ (s.commands commandId).executed = false
    ∧ s.hasVoted commandId sender = false
    ∧ s'.hasVoted = setVoted s.hasVoted commandId sender true
    ∧ s'.totalActiveCapacity = s.totalActiveCapacity
    ∧ s'.energyNodes = setNode s.energyNodes sender
        { lookupNode s.energyNodes sender with
          totalVotesCast := (lookupNode s.energyNodes sender).totalVotesCast + 1 }
    ∧ s'.commandCount = s.commandCount
    ∧ (∀ j, j ≠ commandId → s'.commands j = s.commands j)
    ∧ (s'.commands commandId).votesFor
        = (if support then (s.commands commandId).votesFor
              + (lookupNode s.energyNodes sender).votingPower
           else (s.commands commandId).votesFor)
    ∧ (s'.commands commandId).votesAgainst
        = (if support then (s.commands commandId).votesAgainst
           else (s.commands commandId).votesAgainst
              + (lookupNode s.energyNodes sender).votingPower)
    ∧ (s'.events = s.events ++ [Event.CommandVoted commandId sender
          (lookupNode s.energyNodes sender).votingPower support]
       ∨ ((s'.commands commandId).executed = true
          ∧ ∃ d f g, s'.events = s.events ++ [Event.CommandVoted commandId sender
              (lookupNode s.energyNodes sender).votingPower support,
              Event.PhotonicSignalEmitted commandId d,
              Event.CommandExecuted commandId d f g])) := by
  simp only [voteOnCommand] at h
  split_ifs at h with h1 h2 h3 h4 h5 hsup
  . obtain ⟨e1, e2, e3, e4, e5, e6, e7, e8, e9, e10⟩ :=
      checkAndExecuteCommand_ok _ _ _ h
    refine ⟨h1, h2, h3, h4, h5, ?_, ?_, ?_, ?_, ?_, ?_, ?_, ?_⟩
    . rw [e3]
    . rw [e2]
    . rw [e1]
    . rw [e4]
    . intro j hj
      rw [e6 j hj]
      simp [setCmd, hj]
    . rw [e7, if_pos hsup]
      simp [setCmd]
    . rw [e8, if_pos hsup]
      simp [setCmd]
    . rcases e10 with ⟨hev, _⟩ | ⟨_, hexec, hev⟩
      . left
        rw [hev]
      . right
        refine ⟨hexec, (s.commands commandId).photonicData, ((s.commands commandId).votesFor + (lookupNode s.energyNodes sender).votingPower), (s.commands commandId).votesAgainst, ?_⟩
        rw [hev]
        simp [setCmd]
  . obtain ⟨e1, e2, e3, e4, e5, e6, e7, e8, e9, e10⟩ :=
      checkAndExecuteCommand_ok _ _ _ h
    refine ⟨h1, h2, h3, h4, h5, ?_, ?_, ?_, ?_, ?_, ?_, ?_, ?_⟩
    . rw [e3]
    . rw [e2]
    . rw [e1]
    . rw [e4]
    . intro j hj
      rw [e6 j hj]
      simp [setCmd, hj]
    . rw [e7, if_neg hsup]
      simp [setCmd]
    . rw [e8, if_neg hsup]
      simp [setCmd]
    . rcases e10 with ⟨hev, _⟩ | ⟨_, hexec, hev⟩
      . left
        rw [hev]
      . right
        refine ⟨hexec, (s.commands commandId).photonicData, (s.commands commandId).votesFor, ((s.commands commandId).votesAgainst + (lookupNode s.energyNodes sender).votingPower), ?_⟩
        rw [hev]
        simp [setCmd]


/-! ### The capacity aggregate invariant -/

/-- `totalActiveCapacity` equals the sum of `capacity` over active nodes. -/
def CapInv (s : GridState) : Prop :=
  s.totalActiveCapacity = sumActive s.energyNodes

theorem capInv_initState (owner : Address) : CapInv (initState owner) := rfl

theorem capInv_exec1 (s : GridState) (op : Op) (h : CapInv s) : CapInv (exec1 s op) := by
  unfold CapInv at h ⊢
  unfold exec1
  cases hstep : stepE s op with
  | error e => exact h
  | ok s' =>
    cases op with
    | propose sender now c r d =>
      obtain ⟨e1, e2, _⟩ := proposeCommand_ok s sender now c r d s' hstep
      rw [e1, e2]
      exact h
    | vote sender now commandId support =>
      obtain ⟨_, _, _, _, _, _, e7, e8, _⟩ :=
        voteOnCommand_ok s sender now commandId support s' hstep
      rw [e7, e8, sumActive_setNode_of_same]
      · exact h
      · rfl
      · rfl
    | execute sender now commandId =>
      obtain ⟨_, _, _, _, _, _, hint⟩ := executeCommand_ok s now commandId s' hstep
      obtain ⟨_, e1, e2, _⟩ := execCommandInternal_ok s commandId s' hint
      rw [e1, e2]
      exact h
    | register sender now location capacity =>
      simp only [stepE] at hstep
      cases hreg : registerEnergyNode s sender now location capacity with
      | error e => rw [hreg] at hstep; cases hstep
      | ok p =>
        rw [hreg] at hstep
        simp only [Except.map, Except.ok.injEq] at hstep
        obtain ⟨h1, h2, e1, e2, _⟩ :=
          registerEnergyNode_ok s sender now location capacity p.1 p.2 (by rw [hreg])
        rw [hstep] at e1 e2
        rw [e1, e2, sumActive_setNode_of_inactive _ _ _ h1]
        simp [h]
    | beat sender now =>
      obtain ⟨_, e1, e2, _⟩ := heartbeat_ok s sender now s' hstep
      rw [e1, e2, sumActive_setNode_of_same]
      · exact h
      · rfl
      · rfl
    | deactivate sender nodeAddress =>
      obtain ⟨_, hact, e1, e2, _⟩ := deactivateNode_ok s sender nodeAddress s' hstep
      rw [e1, e2]
      have hsum := sumActive_setNode_of_deactivate s.energyNodes nodeAddress
        { lookupNode s.energyNodes nodeAddress with isActive := false } hact rfl
      omega
    | health sender now nodeAddress =>
      obtain ⟨hact, hcases⟩ := checkNodeHealth_ok s now nodeAddress s' hstep
      rcases hcases with ⟨_, rfl⟩ | ⟨_, e1, e2, _⟩
      · exact h
      · rw [e1, e2]
        have hsum := sumActive_setNode_of_deactivate s.energyNodes nodeAddress
          { lookupNode s.energyNodes nodeAddress with isActive := false } hact rfl
        omega

theorem capInv_run (s : GridState) (ops : List Op) (h : CapInv s) : CapInv (run s ops) := by
  induction ops generalizing s with
  | nil => exact h
  | cons op t ih => exact ih (exec1 s op) (capInv_exec1 s op h)

/-! ### Execution monotonicity and at-most-once effects -/

theorem stepE_register_ok (s : GridState) (sender : Address) (now : Timestamp)
    (location : List Nat) (capacity : Nat) (s' : GridState)
    (h : stepE s (Op.register sender now location capacity) = Except.ok s') :
    registerEnergyNode s sender now location capacity = Except.ok (s', []) := by
  simp only [stepE] at h
  cases hreg : registerEnergyNode s sender now location capacity with
  | error e => rw [hreg] at h; cases h
  | ok p =>
    rw [hreg] at h
    simp only [Except.map, Except.ok.injEq] at h
    obtain ⟨-, -, -, -, -, -, -, -, -, hret⟩ :=
      registerEnergyNode_ok s sender now location capacity p.1 p.2 (by rw [hreg])
    cases p with
    | mk p1 p2 =>
      simp only at h hret
      rw [h, hret]

theorem executed_mono_exec1 (s : GridState) (op : Op) (commandId : Nat)
    (h : (s.commands commandId).executed = true) :
    ((exec1 s op).commands commandId).executed = true := by
  unfold exec1
  cases hstep : stepE s op with
  | error e => exact h
  | ok s' =>
    cases op with
    | propose sender now c r d =>
      obtain ⟨_, _, _, _, _, e6, _⟩ := proposeCommand_ok s sender now c r d s' hstep
      rw [(e6 commandId).1]
      exact h
    | vote sender now cid sup =>
      obtain ⟨_, _, _, h4, _, _, _, _, _, eframe, _⟩ :=
        voteOnCommand_ok s sender now cid sup s' hstep
      by_cases hc : commandId = cid
      · subst hc; rw [h] at h4; cases h4
      · rw [eframe commandId hc]; exact h
    | execute sender now cid =>
      obtain ⟨_, _, _, _, _, _, hint⟩ := executeCommand_ok s now cid s' hstep
      obtain ⟨hex, _, _, _, _, _, eframe, ecmd, _⟩ := execCommandInternal_ok s cid s' hint
      by_cases hc : commandId = cid
      · subst hc; rw [h] at hex; cases hex
      · rw [eframe commandId hc]; exact h
    | register sender now location capacity =>
      obtain ⟨_, _, _, _, e5, _⟩ :=
        registerEnergyNode_ok s sender now location capacity s' []
          (stepE_register_ok s sender now location capacity s' hstep)
      rw [e5]
      exact h
    | beat sender now =>
      obtain ⟨_, _, _, e4, _⟩ := heartbeat_ok s sender now s' hstep
      rw [e4]
      exact h
    | deactivate sender nodeAddress =>
      obtain ⟨_, _, _, _, e5, _⟩ := deactivateNode_ok s sender nodeAddress s' hstep
      rw [e5]
      exact h
    | health sender now nodeAddress =>
      obtain ⟨_, hcases⟩ := checkNodeHealth_ok s now nodeAddress s' hstep
      rcases hcases with ⟨_, rfl⟩ | ⟨_, _, _, e3, _⟩
      · exact h
      · rw [e3]; exact h

/-- The `executed` flag accounts for `CommandExecuted` events: none before the
flag flips, never more than one. -/
def ExecInv (s : GridState) : Prop :=
  ∀ commandId, ((s.commands commandId).executed = false → countExec s.events commandId = 0)
    ∧ countExec s.events commandId ≤ 1

theorem execInv_initState (owner : Address) : ExecInv (initState owner) := by
  intro commandId
  exact ⟨fun _ => rfl, Nat.zero_le 1⟩

theorem execInv_exec1 (s : GridState) (op : Op) (h : ExecInv s) : ExecInv (exec1 s op) := by
  unfold exec1
  cases hstep : stepE s op with
  | error e => exact h
  | ok s' =>
    intro commandId
    cases op with
    | propose sender now c r d =>
      obtain ⟨_, _, _, _, _, e6, e7⟩ := proposeCommand_ok s sender now c r d s' hstep
      rw [e7, countExec_append, (e6 commandId).1]
      simpa [countExec] using h commandId
    | vote sender now cid sup =>
      obtain ⟨_, _, _, h4, _, _, _, _, _, eframe, _, _, eev⟩ :=
        voteOnCommand_ok s sender now cid sup s' hstep
      rcases eev with hev | ⟨hexec, d, f, g, hev⟩
      · rw [hev, countExec_append]
        by_cases hc : commandId = cid
        · subst hc
          have h0 : countExec s.events commandId = 0 := (h commandId).1 h4
          simp [countExec, h0]
        · rw [eframe commandId hc]
          simpa [countExec] using h commandId
      · rw [hev, countExec_append]
        by_cases hc : commandId = cid
        · subst hc
          have h0 : countExec s.events commandId = 0 := (h commandId).1 h4
          constructor
          · intro hfalse
            rw [hexec] at hfalse
            cases hfalse
          · simp [countExec, h0]
        · rw [eframe commandId hc]
          have hne : ¬ cid = commandId := fun hx => hc hx.symm
          simpa [countExec, hne] using h commandId
    | execute sender now cid =>
      obtain ⟨_, _, _, _, _, _, hint⟩ := executeCommand_ok s now cid s' hstep
      obtain ⟨hex, _, _, _, _, _, eframe, ecmd, eev⟩ := execCommandInternal_ok s cid s' hint
      rw [eev, countExec_append]
      by_cases hc : commandId = cid
      · subst hc
        have h0 : countExec s.events commandId = 0 := (h commandId).1 hex
        constructor
        · intro hfalse
          rw [ecmd] at hfalse
          cases hfalse
        · simp [countExec, h0]
      · rw [eframe commandId hc]
        have hne : ¬ cid = commandId := fun hx => hc hx.symm
        simpa [countExec, hne] using h commandId
    | register sender now location capacity =>
      obtain ⟨_, _, _, _, e5, _, _, _, e9, _⟩ :=
        registerEnergyNode_ok s sender now location capacity s' []
          (stepE_register_ok s sender now location capacity s' hstep)
      rw [e9, countExec_append, e5]
      simpa [countExec] using h commandId
    | beat sender now =>
      obtain ⟨_, _, _, e4, _, _, _, e8⟩ := heartbeat_ok s sender now s' hstep
      rw [e8, e4]
      exact h commandId
    | deactivate sender nodeAddress =>
      obtain ⟨_, _, _, _, e5, _, _, _, e9⟩ := deactivateNode_ok s sender nodeAddress s' hstep
      rw [e9, countExec_append, e5]
      simpa [countExec] using h commandId
    | health sender now nodeAddress =>
      obtain ⟨_, hcases⟩ := checkNodeHealth_ok s now nodeAddress s' hstep
      rcases hcases with ⟨_, rfl⟩ | ⟨_, _, _, e3, _, _, _, e7⟩
      · exact h commandId
      · rw [e7, countExec_append, e3]
        simpa [countExec] using h commandId

theorem execInv_run (s : GridState) (ops : List Op) (h : ExecInv s) : ExecInv (run s ops) := by
  induction ops generalizing s with
  | nil => exact h
  | cons op t ih => exact ih (exec1 s op) (execInv_exec1 s op h)

/-- The `hasVoted` flag accounts for `CommandVoted` events: none before the
flag flips, never more than one per (proposal, voter) pair. -/
def VoteInv (s : GridState) : Prop :=
  ∀ commandId a,
    (s.hasVoted commandId a = false → countVoted s.events commandId a = 0)
    ∧ countVoted s.events commandId a ≤ 1

theorem voteInv_initState (owner : Address) : VoteInv (initState owner) := by
  intro commandId a
  exact ⟨fun _ => rfl, Nat.zero_le 1⟩

theorem voteInv_exec1 (s : GridState) (op : Op) (h : VoteInv s) : VoteInv (exec1 s op) := by
  unfold exec1
  cases hstep : stepE s op with
  | error e => exact h
  | ok s' =>
    intro commandId a
    cases op with
    | propose sender now c r d =>
      obtain ⟨_, _, e3, _, _, _, e7⟩ := proposeCommand_ok s sender now c r d s' hstep
      rw [e7, countVoted_append, e3]
      simpa [countVoted] using h commandId a
    | vote sender now cid sup =>
      obtain ⟨_, _, _, _, h5, e6, _, _, _, _, _, _, eev⟩ :=
        voteOnCommand_ok s sender now cid sup s' hstep
      have hvote : ∀ l2, countVoted (Event.CommandVoted cid sender
            (lookupNode s.energyNodes sender).votingPower sup :: l2) commandId a
          = (if cid = commandId ∧ sender = a then 1 else 0) + countVoted l2 commandId a :=
        fun l2 => rfl
      by_cases hc : cid = commandId ∧ sender = a
      · obtain ⟨hc1, hc2⟩ := hc
        subst hc1
        subst hc2
        have h0 : countVoted s.events cid sender = 0 := (h cid sender).1 h5
        have hhv : s'.hasVoted cid sender = true := by
          rw [e6]
          simp [setVoted]
        constructor
        · intro hfalse
          rw [hhv] at hfalse
          cases hfalse
        · rcases eev with hev | ⟨_, d, f, g, hev⟩ <;>
            simp [hev, countVoted_append, hvote, countVoted, h0]
      · have hhv : s'.hasVoted commandId a = s.hasVoted commandId a := by
          rw [e6]
          simp only [setVoted]
          rw [if_neg]
          intro hx
          exact hc ⟨hx.1.symm, hx.2.symm⟩
        have hcount : countVoted s'.events commandId a = countVoted s.events commandId a := by
          rcases eev with hev | ⟨_, d, f, g, hev⟩ <;>
            simp [hev, countVoted_append, hvote, countVoted, hc]
        rw [hcount, hhv]
        exact h commandId a
    | execute sender now cid =>
      obtain ⟨_, _, _, _, _, _, hint⟩ := executeCommand_ok s now cid s' hstep
      obtain ⟨_, _, _, e4, _, _, _, _, eev⟩ := execCommandInternal_ok s cid s' hint
      rw [eev, countVoted_append, e4]
      simpa [countVoted] using h commandId a
    | register sender now location capacity =>
      obtain ⟨_, _, _, _, _, e6, _, _, e9, _⟩ :=
        registerEnergyNode_ok s sender now location capacity s' []
          (stepE_register_ok s sender now location capacity s' hstep)
      rw [e9, countVoted_append, e6]
      simpa [countVoted] using h commandId a
    | beat sender now =>
      obtain ⟨_, _, _, _, e5, _, _, e8⟩ := heartbeat_ok s sender now s' hstep
      rw [e8, e5]
      exact h commandId a
    | deactivate sender nodeAddress =>
      obtain ⟨_, _, _, _, _, e6, _, _, e9⟩ := deactivateNode_ok s sender nodeAddress s' hstep
      rw [e9, countVoted_append, e6]
      simpa [countVoted] using h commandId a
    | health sender now nodeAddress =>
      obtain ⟨_, hcases⟩ := checkNodeHealth_ok s now nodeAddress s' hstep
      rcases hcases with ⟨_, rfl⟩ | ⟨_, _, _, _, e5, _, _, e7⟩
      · exact h commandId a
      · rw [e7, countVoted_append, e5]
        simpa [countVoted] using h commandId a

theorem voteInv_run (s : GridState) (ops : List Op) (h : VoteInv s) : VoteInv (run s ops) := by
  induction ops generalizing s with
  | nil => exact h
  | cons op t ih => exact ih (exec1 s op) (voteInv_exec1 s op h)

/-! ### Further helper lemmas -/

theorem vote_fails_of_hasVoted (s : GridState) (a : Address) (commandId : Nat)
    (hv : s.hasVoted commandId a = true) (now : Timestamp) (support : Bool) :
    ∃ e, voteOnCommand s a now commandId support = Except.error e := by
  unfold voteOnCommand
  split_ifs with h1 h2 h3 h4 h5 <;>
    first
      | (rw [hv] at h5; cases h5)
      | exact ⟨_, rfl⟩

theorem vote_alreadyVoted_of_checks (s : GridState) (a : Address) (now : Timestamp)
    (commandId : Nat) (support : Bool)
    (h1 : (lookupNode s.energyNodes a).isActive = true)
    (h2 : 0 < commandId ∧ commandId ≤ s.commandCount)
    (h3 : now ≤ (s.commands commandId).timestamp + VOTING_PERIOD)
    (h4 : (s.commands commandId).executed = false)
    (h5 : s.hasVoted commandId a = true) :
    voteOnCommand s a now commandId support = Except.error Err.alreadyVoted := by
  unfold voteOnCommand
  rw [if_pos h1, if_pos h2, if_pos h3, if_pos h4, if_neg]
  rw [h5]
  intro hx
  cases hx

theorem checkAndExec_executes (s : GridState) (commandId : Nat) (s' : GridState)
    (h : checkAndExecuteCommand s commandId = Except.ok s')
    (hq : s.totalActiveCapacity * MIN_PARTICIPATION_PERCENTAGE / 100
        ≤ (s'.commands commandId).votesFor + (s'.commands commandId).votesAgainst)
    (ha : MIN_APPROVAL_PERCENTAGE ≤ (s'.commands commandId).votesFor * 100
        / ((s'.commands commandId).votesFor + (s'.commands commandId).votesAgainst)) :
    (s'.commands commandId).executed = true := by
  obtain ⟨_, _, _, _, _, _, e7, e8, _, _⟩ := checkAndExecuteCommand_ok _ _ _ h
  rw [e7, e8] at hq ha
  simp only [checkAndExecuteCommand] at h
  split_ifs at h with c1 c2 c3
  all_goals
    first
      | (simp only [Except.ok.injEq] at h
         subst h
         first
           | omega
           | (have hz : (s.commands commandId).votesFor
                  + (s.commands commandId).votesAgainst = 0 := by omega
              rw [hz, Nat.div_zero] at ha
              exact absurd ha (by decide)))
      | (obtain ⟨-, -, -, -, -, -, -, ecmd, -⟩ := execCommandInternal_ok s commandId s' h
         rw [ecmd])

/-- True when the operation is a registration transaction sent by `a`. -/
def Op.isRegisterOf : Op → Address → Bool
  | Op.register sender _ _ _, a => decide (sender = a)
  | _, _ => false

theorem inactive_node_frozen_exec1 (s : GridState) (op : Op) (a : Address)
    (hina : (lookupNode s.energyNodes a).isActive = false)
    (hnr : op.isRegisterOf a = false) :
    lookupNode (exec1 s op).energyNodes a = lookupNode s.energyNodes a := by
  unfold exec1
  cases hstep : stepE s op with
  | error e => rfl
  | ok s' =>
    cases op with
    | propose sender now c r d =>
      obtain ⟨e1, _⟩ := proposeCommand_ok s sender now c r d s' hstep
      rw [e1]
    | vote sender now cid sup =>
      obtain ⟨h1, _, _, _, _, _, _, e8, _⟩ := voteOnCommand_ok s sender now cid sup s' hstep
      have hne : a ≠ sender := by
        intro hx
        rw [hx] at hina
        rw [hina] at h1
        cases h1
      rw [e8, lookupNode_setNode_ne _ _ _ _ hne]
    | execute sender now cid =>
      obtain ⟨_, _, _, _, _, _, hint⟩ := executeCommand_ok s now cid s' hstep
      obtain ⟨_, e1, _⟩ := execCommandInternal_ok s cid s' hint
      rw [e1]
    | register sender now location capacity =>
      obtain ⟨_, _, e3, _⟩ :=
        registerEnergyNode_ok s sender now location capacity s' []
          (stepE_register_ok s sender now location capacity s' hstep)
      have hne : a ≠ sender := by
        intro hx
        rw [hx] at hnr
        simp [Op.isRegisterOf] at hnr
      rw [e3, lookupNode_setNode_ne _ _ _ _ hne]
    | beat sender now =>
      obtain ⟨h1, e2, _⟩ := heartbeat_ok s sender now s' hstep
      have hne : a ≠ sender := by
        intro hx
        rw [hx] at hina
        rw [hina] at h1
        cases h1
      rw [e2, lookupNode_setNode_ne _ _ _ _ hne]
    | deactivate sender nodeAddress =>
      obtain ⟨_, h2, e3, _⟩ := deactivateNode_ok s sender nodeAddress s' hstep
      have hne : a ≠ nodeAddress := by
        intro hx
        rw [hx] at hina
        rw [hina] at h2
        cases h2
      rw [e3, lookupNode_setNode_ne _ _ _ _ hne]
    | health sender now nodeAddress =>
      obtain ⟨h1, hcases⟩ := checkNodeHealth_ok s now nodeAddress s' hstep
      have hne : a ≠ nodeAddress := by
        intro hx
        rw [hx] at hina
        rw [hina] at h1
        cases h1
      rcases hcases with ⟨_, rfl⟩ | ⟨_, e2, _⟩
      · rfl
      · rw [e2, lookupNode_setNode_ne _ _ _ _ hne]

theorem inactive_node_frozen_run (s : GridState) (ops : List Op) (a : Address)
    (hina : (lookupNode s.energyNodes a).isActive = false)
    (hnr : ∀ op ∈ ops, op.isRegisterOf a = false) :
    lookupNode (run s ops).energyNodes a = lookupNode s.energyNodes a := by
  induction ops generalizing s with
  | nil => rfl
  | cons op t ih =>
    have hstep := inactive_node_frozen_exec1 s op a hina (hnr op (by simp))
    have hina' : (lookupNode (exec1 s op).energyNodes a).isActive = false := by
      rw [hstep]
      exact hina
    have := ih (exec1 s op) hina' (fun o ho => hnr o (by simp [ho]))
    rw [show run s (op :: t) = run (exec1 s op) t from rfl, this, hstep]

/-! ### Claim theorems -/

/-- Claim C1: for every sequence of operations from a fresh deployment
(register, deactivate, checkHealth and all others included), the stored
aggregate `totalActiveCapacity` equals the sum of `capacity` over the
participants whose `isActive` flag is currently true — in particular after
every mutation. -/
theorem claim1_totalActiveCapacity_eq_sumActive (owner : Address) (ops : List Op) :
    (run (initState owner) ops).totalActiveCapacity
      = sumActive (run (initState owner) ops).energyNodes :=
  capInv_run (initState owner) ops (capInv_initState owner)

/-- Claim C2 (counterexample): a second vote by the same identity on the same
proposal does not always fail with `AlreadyVoted`: when the first vote
auto-executed the proposal, the second vote fails earlier, in the
`votingOpen` modifier, with `AlreadyExecuted`. -/
theorem claim2_counterexample_second_vote_alreadyExecuted :
    stepE (run (initState 0) [Op.register 1 5 [1] 40, Op.register 2 5 [2] 60,
        Op.propose 0 10 [9] [8] [7], Op.vote 1 20 1 true])
      (Op.vote 1 30 1 true) = Except.error Err.alreadyExecuted
    ∧ Err.alreadyExecuted ≠ Err.alreadyVoted :=
  ⟨rfl, by decide⟩

/-- Claim C2 (amended): each identity's voting weight is added to a
proposal's tallies at most once (at most one `CommandVoted` event per
(proposal, voter) pair in any reachable state); once the identity has voted,
every further vote on that proposal fails — and it fails with precisely
`AlreadyVoted` whenever the earlier modifier checks (active node, command
exists, voting open, not executed) pass. -/
theorem claim2_vote_counted_at_most_once (owner : Address) (ops : List Op)
    (commandId : Nat) (a : Address) :
    countVoted (run (initState owner) ops).events commandId a ≤ 1
    ∧ ((run (initState owner) ops).hasVoted commandId a = true →
        ∀ now support, ∃ e,
          stepE (run (initState owner) ops) (Op.vote a now commandId support)
            = Except.error e)
    ∧ (∀ (s : GridState) (now : Timestamp) (support : Bool),
        (lookupNode s.energyNodes a).isActive = true →
        (0 < commandId ∧ commandId ≤ s.commandCount) →
        now ≤ (s.commands commandId).timestamp + VOTING_PERIOD →
        (s.commands commandId).executed = false →
        s.hasVoted commandId a = true →
        stepE s (Op.vote a now commandId support) = Except.error Err.alreadyVoted) := by
  refine ⟨(voteInv_run (initState owner) ops (voteInv_initState owner) commandId a).2,
    ?_, ?_⟩
  · intro hv now support
    exact vote_fails_of_hasVoted _ a commandId hv now support
  · intro s now support h1 h2 h3 h4 h5
    exact vote_alreadyVoted_of_checks s a now commandId support h1 h2 h3 h4 h5

/-- Claim C2 witness: after voting against proposal 1, node 1's second vote
attempt fails. -/
theorem claim2_vote_counted_at_most_once_witness :
    ∃ e, stepE (run (initState 0) [Op.register 1 5 [1] 40, Op.register 2 5 [2] 60,
        Op.propose 0 10 [9] [8] [7], Op.vote 1 20 1 false])
      (Op.vote 1 30 1 true) = Except.error e :=
  (claim2_vote_counted_at_most_once 0 [Op.register 1 5 [1] 40, Op.register 2 5 [2] 60,
      Op.propose 0 10 [9] [8] [7], Op.vote 1 20 1 false] 1 1).2.1 (by rfl) 30 true

/-- Claim C3: in every reachable state, at most one `CommandExecuted` event
has been emitted per proposal (the execution effect — flipping the flag and
emitting payload and tallies — never runs twice, whether through auto- or
manual execution), and the `executed` flag is monotone: once true it stays
true under every further operation. -/
theorem claim3_executed_monotonic_effect_once (owner : Address) (ops : List Op)
    (commandId : Nat) :
    countExec (run (initState owner) ops).events commandId ≤ 1
    ∧ ∀ op, ((run (initState owner) ops).commands commandId).executed = true →
        ((exec1 (run (initState owner) ops) op).commands commandId).executed = true := by
  refine ⟨(execInv_run (initState owner) ops (execInv_initState owner) commandId).2, ?_⟩
  intro op h
  exact executed_mono_exec1 _ op commandId h

/-- Claim C3 witness: proposal 1 stays executed across a further operation. -/
theorem claim3_executed_monotonic_effect_once_witness :
    ((exec1 (run (initState 0) [Op.register 1 5 [1] 40, Op.register 2 5 [2] 60,
        Op.propose 0 10 [9] [8] [7], Op.vote 1 20 1 true]) (Op.deactivate 0 2)).commands
      1).executed = true :=
  (claim3_executed_monotonic_effect_once 0 [Op.register 1 5 [1] 40, Op.register 2 5 [2] 60,
      Op.propose 0 10 [9] [8] [7], Op.vote 1 20 1 true] 1).2 (Op.deactivate 0 2) (by rfl)

/-- Claim C4: after every successful vote, quorum and approval are checked
against the live aggregate, and the proposal executes immediately when both
hold: if a vote succeeds and the resulting tallies meet
`cast ≥ totalActiveCapacity * 30 / 100` and `votesFor * 100 / cast ≥ 60`,
the proposal's `executed` flag is true in the post-state. -/
theorem claim4_vote_autoexecutes_on_thresholds (s : GridState) (sender : Address)
    (now : Timestamp) (commandId : Nat) (support : Bool) (s' : GridState)
    (hok : stepE s (Op.vote sender now commandId support) = Except.ok s')
    (hq : s.totalActiveCapacity * MIN_PARTICIPATION_PERCENTAGE / 100
        ≤ (s'.commands commandId).votesFor + (s'.commands commandId).votesAgainst)
    (ha : MIN_APPROVAL_PERCENTAGE ≤ (s'.commands commandId).votesFor * 100
        / ((s'.commands commandId).votesFor + (s'.commands commandId).votesAgainst)) :
    (s'.commands commandId).executed = true := by
  simp only [stepE, voteOnCommand] at hok
  split_ifs at hok with h1 h2 h3 h4 h5 <;>
    first
      | exact checkAndExec_executes _ commandId s' hok hq ha
      | simp at hok

/-- Claim C4 witness: the spec scenario — capacities 40 and 60 (total 100),
one supporting vote of weight 40 (quorum 40 ≥ 30, approval 100% ≥ 60%)
executes the proposal on that vote alone. -/
theorem claim4_vote_autoexecutes_on_thresholds_witness :
    ((run (initState 0) [Op.register 1 5 [1] 40, Op.register 2 5 [2] 60,
        Op.propose 0 10 [9] [8] [7], Op.vote 1 20 1 true]).commands 1).executed = true :=
  claim4_vote_autoexecutes_on_thresholds
    (run (initState 0) [Op.register 1 5 [1] 40, Op.register 2 5 [2] 60,
      Op.propose 0 10 [9] [8] [7]])
    1 20 1 true
    (run (initState 0) [Op.register 1 5 [1] 40, Op.register 2 5 [2] 60,
      Op.propose 0 10 [9] [8] [7], Op.vote 1 20 1 true])
    (by rfl) (by decide) (by decide)

/-- Trace reaching tallies 59 for / 41 against with total active capacity
100: three nodes (59, 41, 900 MW), both small nodes vote while quorum is
still out of reach against the 1000 MW total, then the large node is
deactivated. -/
def opsFiftyNine : List Op :=
  [Op.register 1 5 [1] 59, Op.register 2 5 [2] 41, Op.register 3 5 [3] 900,
   Op.propose 0 10 [9] [8] [7], Op.vote 2 20 1 false, Op.vote 1 21 1 true,
   Op.deactivate 0 3]

/-- Same trace with capacities 60 and 40: tallies 60 for / 40 against with
total active capacity 100. -/
def opsSixty : List Op :=
  [Op.register 1 5 [1] 60, Op.register 2 5 [2] 40, Op.register 3 5 [3] 900,
   Op.propose 0 10 [9] [8] [7], Op.vote 2 20 1 false, Op.vote 1 21 1 true,
   Op.deactivate 0 3]

/-- Claim C5: percentages use integer division truncated toward zero. With
total active capacity 100, tallies 59/41 meet quorum (execution gets past
the quorum gate and fails only the approval gate) but are not executable
(`59 * 100 / 100 = 59 < 60`), while tallies 60/40 are executable (exactly
60%) — both through the `getCommandStatus` view and `executeCommand`. -/
theorem claim5_truncation_boundaries :
    (run (initState 0) opsFiftyNine).totalActiveCapacity = 100
    ∧ ((run (initState 0) opsFiftyNine).commands 1).votesFor = 59
    ∧ ((run (initState 0) opsFiftyNine).commands 1).votesAgainst = 41
    ∧ Except.map CommandStatus.approvalPercentage
        (getCommandStatus (run (initState 0) opsFiftyNine) 1) = Except.ok 59
    ∧ Except.map CommandStatus.executable
        (getCommandStatus (run (initState 0) opsFiftyNine) 1) = Except.ok false
    ∧ executeCommand (run (initState 0) opsFiftyNine) (10 + VOTING_PERIOD) 1
        = Except.error Err.notApproved
    ∧ (run (initState 0) opsSixty).totalActiveCapacity = 100
    ∧ ((run (initState 0) opsSixty).commands 1).votesFor = 60
    ∧ ((run (initState 0) opsSixty).commands 1).votesAgainst = 40
    ∧ Except.map CommandStatus.approvalPercentage
        (getCommandStatus (run (initState 0) opsSixty) 1) = Except.ok 60
    ∧ Except.map CommandStatus.executable
        (getCommandStatus (run (initState 0) opsSixty) 1) = Except.ok true
    ∧ ∃ s', executeCommand (run (initState 0) opsSixty) (10 + VOTING_PERIOD) 1
        = Except.ok s' ∧ (s'.commands 1).executed = true :=
  ⟨rfl, rfl, rfl, rfl, rfl, rfl, rfl, rfl, rfl, rfl, rfl, _, rfl, rfl⟩

/-- Claim C6: for an active participant, `checkNodeHealth` deactivates it and
subtracts its capacity from the aggregate exactly when the last heartbeat is
more than 30 days old; a fresh participant yields a state identical to the
input, and an inactive participant makes the call revert (hence no state
change in transaction semantics). -/
theorem claim6_checkHealth_exact_condition (s : GridState) (now : Timestamp)
    (a : Address) :
    ((lookupNode s.energyNodes a).isActive = true →
      ((lookupNode s.energyNodes a).lastHeartbeat + HEALTH_WINDOW < now →
        ∃ s', checkNodeHealth s now a = Except.ok s'
          ∧ lookupNode s'.energyNodes a
              = { lookupNode s.energyNodes a with isActive := false }
          ∧ s'.totalActiveCapacity
              = s.totalActiveCapacity - (lookupNode s.energyNodes a).capacity
          ∧ (∀ b, b ≠ a → lookupNode s'.energyNodes b = lookupNode s.energyNodes b)
          ∧ s'.commands = s.commands ∧ s'.hasVoted = s.hasVoted)
      ∧ (¬ (lookupNode s.energyNodes a).lastHeartbeat + HEALTH_WINDOW < now →
          checkNodeHealth s now a = Except.ok s))
    ∧ ((lookupNode s.energyNodes a).isActive = false →
        checkNodeHealth s now a = Except.error Err.notActive) := by
  constructor
  · intro hact
    constructor
    · intro hstale
      have hok : checkNodeHealth s now a = Except.ok
          { s with
            totalActiveCapacity
              := s.totalActiveCapacity - (lookupNode s.energyNodes a).capacity
            energyNodes := setNode s.energyNodes a
              { lookupNode s.energyNodes a with isActive := false }
            events := s.events ++ [Event.NodeDeactivated a] } := by
        simp only [checkNodeHealth]
        rw [if_pos hact, if_pos hstale]
      refine ⟨_, hok, ?_, rfl, ?_, rfl, rfl⟩
      · rw [lookupNode_setNode_self]
      · intro b hb
        exact lookupNode_setNode_ne _ _ _ _ hb
    · intro hfresh
      simp only [checkNodeHealth]
      rw [if_pos hact, if_neg hfresh]
  · intro hina
    have hcond : ¬ (lookupNode s.energyNodes a).isActive = true := by
      rw [hina]
      intro hx
      cases hx
    simp only [checkNodeHealth]
    rw [if_neg hcond]

/-- Claim C6 witness: a fresh participant's health check is a no-op. -/
theorem claim6_checkHealth_exact_condition_witness :
    checkNodeHealth (run (initState 0) [Op.register 1 5 [1] 40]) 6 1
      = Except.ok (run (initState 0) [Op.register 1 5 [1] 40]) :=
  ((claim6_checkHealth_exact_condition (run (initState 0) [Op.register 1 5 [1] 40])
      6 1).1 (by rfl)).2 (by decide)

/-- Claim C7 (counterexample): `registerEnergyNode` declares no return value,
so a successful call returns empty ABI data, not the assigned voting power:
registering with capacity 40 returns `[]`, which is not `[40]`. -/
theorem claim7_counterexample_register_returns_no_value :
    Except.map Prod.snd (registerEnergyNode (initState 0) 1 0 [7] 40)
      = Except.ok ([] : List Nat)
    ∧ ([] : List Nat) ≠ [40] :=
  ⟨rfl, by decide⟩

/-- Claim C7 (amended): every successful `register(identity, location,
capacity)` call creates the record with `votingPower = capacity`,
`active = true`, `lastHealthTime = now`, adds `capacity` to the aggregate,
and emits the assigned voting power in the `NodeRegistered` event; the
function itself returns no value. -/
theorem claim7_register_postconditions (s : GridState) (sender : Address)
    (now : Timestamp) (location : List Nat) (capacity : Nat) (s' : GridState)
    (ret : List Nat)
    (h : registerEnergyNode s sender now location capacity = Except.ok (s', ret)) :
    lookupNode s'.energyNodes sender
      = { nodeAddress := sender, location := location, capacity := capacity,
          isActive := true, lastHeartbeat := now, votingPower := capacity,
          totalVotesCast := 0 }
    ∧ s'.totalActiveCapacity = s.totalActiveCapacity + capacity
    ∧ s'.events = s.events ++ [Event.NodeRegistered sender location capacity capacity]
    ∧ ret = [] := by
  obtain ⟨_, _, e3, e4, _, _, _, _, e9, e10⟩ :=
    registerEnergyNode_ok s sender now location capacity s' ret h
  exact ⟨by rw [e3, lookupNode_setNode_self], e4, e9, e10⟩

/-- Claim C7 witness: registering node 1 with capacity 40 at time 5 creates
exactly the expected record. -/
theorem claim7_register_postconditions_witness :
    lookupNode (run (initState 0) [Op.register 1 5 [1] 40]).energyNodes 1
      = { nodeAddress := 1, location := [1], capacity := 40, isActive := true,
          lastHeartbeat := 5, votingPower := 40, totalVotesCast := 0 } :=
  (claim7_register_postconditions (initState 0) 1 5 [1] 40 _ [] (by rfl)).1

/-- Claim C8 (counterexample): a deactivated record is not immutable under
every subsequent operation — re-registration of the same identity is allowed
once the record is inactive and it overwrites the stored capacity (40
becomes 99). -/
theorem claim8_counterexample_reregistration_overwrites :
    (lookupNode (run (initState 0)
        [Op.register 1 5 [1] 40, Op.deactivate 0 1]).energyNodes 1).isActive = false
    ∧ (lookupNode (run (initState 0)
        [Op.register 1 5 [1] 40, Op.deactivate 0 1]).energyNodes 1).capacity = 40
    ∧ (lookupNode (run (initState 0)
        [Op.register 1 5 [1] 40, Op.deactivate 0 1,
         Op.register 1 6 [2] 99]).energyNodes 1).capacity = 99
    ∧ (99 : Nat) ≠ 40 :=
  ⟨rfl, rfl, rfl, by decide⟩

/-- Claim C8 (amended): deactivation (explicit or by health-expiry) leaves
`location`, `capacity` and `totalVotesCast` unchanged, records are never
deleted, and a deactivated record stays byte-for-byte identical under every
subsequent sequence of operations that does not re-register that identity. -/
theorem claim8_deactivated_record_persists :
    (∀ (s : GridState) (a : Address) (ops : List Op),
      (lookupNode s.energyNodes a).isActive = false →
      (∀ op ∈ ops, op.isRegisterOf a = false) →
      lookupNode (run s ops).energyNodes a = lookupNode s.energyNodes a)
    ∧ (∀ (s : GridState) (x a : Address) (s' : GridState),
        stepE s (Op.deactivate x a) = Except.ok s' →
        lookupNode s'.energyNodes a
          = { lookupNode s.energyNodes a with isActive := false })
    ∧ (∀ (s : GridState) (x : Address) (now : Timestamp) (a : Address) (s' : GridState),
        stepE s (Op.health x now a) = Except.ok s' →
        lookupNode s'.energyNodes a = lookupNode s.energyNodes a
        ∨ lookupNode s'.energyNodes a
            = { lookupNode s.energyNodes a with isActive := false }) := by
  refine ⟨fun s a ops h1 h2 => inactive_node_frozen_run s ops a h1 h2, ?_, ?_⟩
  · intro s x a s' h
    obtain ⟨_, _, e3, _⟩ := deactivateNode_ok s x a s' h
    rw [e3, lookupNode_setNode_self]
  · intro s x now a s' h
    obtain ⟨_, hcases⟩ := checkNodeHealth_ok s now a s' h
    rcases hcases with ⟨_, rfl⟩ | ⟨_, e2, _⟩
    · exact Or.inl rfl
    · exact Or.inr (by rw [e2, lookupNode_setNode_self])

/-- Claim C8 witness: node 1's deactivated record survives later operations
by other identities unchanged. -/
theorem claim8_deactivated_record_persists_witness :
    lookupNode (run (run (initState 0) [Op.register 1 5 [1] 40, Op.deactivate 0 1])
        [Op.register 2 7 [3] 60, Op.beat 2 8]).energyNodes 1
      = lookupNode (run (initState 0)
          [Op.register 1 5 [1] 40, Op.deactivate 0 1]).energyNodes 1 :=
  claim8_deactivated_record_persists.1
    (run (initState 0) [Op.register 1 5 [1] 40, Op.deactivate 0 1]) 1
    [Op.register 2 7 [3] 60, Op.beat 2 8] (by rfl) (by decide)

/-- Claim C9: every operation that fails with one of its named error
conditions leaves the engine state exactly as it was before the call — the
transaction semantics of `run` apply no partial mutation on any failure
path. -/
theorem claim9_failed_op_leaves_state_unchanged (s : GridState) (op : Op) (e : Err)
    (h : stepE s op = Except.error e) : run s [op] = s := by
  simp [run, exec1, h]

/-- Claim C9 witness: a vote by an unregistered node reverts and leaves the
fresh deployment state unchanged. -/
theorem claim9_failed_op_leaves_state_unchanged_witness :
    run (initState 0) [Op.vote 1 0 1 true] = initState 0 :=
  claim9_failed_op_leaves_state_unchanged (initState 0) (Op.vote 1 0 1 true)
    Err.notActiveNode (by rfl)

/-- Claim C10: deactivating a participant — explicitly or through a health
check — never modifies any proposal (`commands` map, hence `votesFor`,
`votesAgainst` and `executed`), never modifies the per-proposal vote records
(`hasVoted`), never touches other participants' records, and leaves the
proposal counter alone; already-counted weights stay counted. -/
theorem claim10_deactivation_preserves_proposals :
    (∀ (s : GridState) (x a : Address) (s' : GridState),
        stepE s (Op.deactivate x a) = Except.ok s' →
        s'.commands = s.commands ∧ s'.hasVoted = s.hasVoted
        ∧ s'.commandCount = s.commandCount
        ∧ (∀ b, b ≠ a → lookupNode s'.energyNodes b = lookupNode s.energyNodes b))
    ∧ (∀ (s : GridState) (x : Address) (now : Timestamp) (a : Address) (s' : GridState),
        stepE s (Op.health x now a) = Except.ok s' →
        s'.commands = s.commands ∧ s'.hasVoted = s.hasVoted
        ∧ s'.commandCount = s.commandCount
        ∧ (∀ b, b ≠ a → lookupNode s'.energyNodes b = lookupNode s.energyNodes b)) := by
  constructor
  · intro s x a s' h
    obtain ⟨_, _, e3, _, e5, e6, e7, _, _⟩ := deactivateNode_ok s x a s' h
    exact ⟨e5, e6, e7, fun b hb => by rw [e3, lookupNode_setNode_ne _ _ _ _ hb]⟩
  · intro s x now a s' h
    obtain ⟨_, hcases⟩ := checkNodeHealth_ok s now a s' h
    rcases hcases with ⟨_, rfl⟩ | ⟨_, e2, _, e4, e5, e6, _, _⟩
    · exact ⟨rfl, rfl, rfl, fun b hb => rfl⟩
    · exact ⟨e4, e5, e6, fun b hb => by rw [e2, lookupNode_setNode_ne _ _ _ _ hb]⟩

/-- Claim C10 witness: after node 1 has voted, deactivating it leaves the
proposal tallies untouched. -/
theorem claim10_deactivation_preserves_proposals_witness :
    (run (initState 0) [Op.register 1 5 [1] 40, Op.register 2 5 [2] 60,
        Op.propose 0 10 [9] [8] [7], Op.vote 1 20 1 false,
        Op.deactivate 0 1]).commands
      = (run (initState 0) [Op.register 1 5 [1] 40, Op.register 2 5 [2] 60,
          Op.propose 0 10 [9] [8] [7], Op.vote 1 20 1 false]).commands :=
  (claim10_deactivation_preserves_proposals.1
    (run (initState 0) [Op.register 1 5 [1] 40, Op.register 2 5 [2] 60,
      Op.propose 0 10 [9] [8] [7], Op.vote 1 20 1 false])
    0 1 _ (by rfl)).1
